import Mathlib

/-!
Verification of the I/O adapter layer of a Rust/Python binding
(`src/adapters.rs`): a capability-probing file-object wrapper
(`PyFileObject`), its Read/Write/Seek implementations, and the
dual-buffered read/write wrapper (`BufReadWritePyFileObject`).

Bytes are modelled as `Nat`, buffers as `List Nat`.  Fallible Rust code
returns `Except String` carrying the error message; the read path, which
can also panic in `copy_from_slice`, returns `RustOutcome`.  Foreign
(Python) calls whose behaviour is not fixed by this crate are passed in
as explicit result parameters (oracles), so theorems quantify over every
possible foreign behaviour.
-/

namespace LazAdapters

/-- Outcome of a Rust function that may panic or return an I/O error. -/
inductive RustOutcome (α : Type) where
  | aborted
  | ioErr (msg : String)
  | ok (v : α)
deriving DecidableEq, Repr

/-- Models `dst[..k].copy_from_slice(src)`: requires `k` to be in range of
`dst` and `src.length = k` (Rust `copy_from_slice` panics on a length
mismatch, and the range indexing panics when `k > dst.length`); `none`
models the panic. -/
def copyIntoRange (dst : List Nat) (k : Nat) (src : List Nat) : Option (List Nat) :=
  if src.length = k ∧ k ≤ dst.length then some (src ++ dst.drop k) else none

/-- The capability record of `PyFileObject`: which of the three method
bindings `getattr` resolved at construction (`write_fn`, `read_fn`,
`readinto_fn` are `Option<Py<PyAny>>` in the source; we keep only
presence). -/
structure PyFileObject where
  write_fn : Bool
  read_fn : Bool
  readinto_fn : Bool
deriving DecidableEq, Repr

/-- Models `PyFileObject::new`: each binding is probed with
`getattr(..).ok()`, so resolution failure is recorded as absence and the
constructor always returns `Ok`. -/
def PyFileObject.new (hasWrite hasRead hasReadinto : Bool) : Except String PyFileObject :=
  Except.ok ⟨hasWrite, hasRead, hasReadinto⟩

/-- Models `<PyFileObject as std::io::Read>::read` over a buffer `buf`.
Foreign behaviour is supplied as oracles:
* `riRes` — result of `readinto.call1(py, (memview,))` followed by
  `extract::<usize>`: `none` when the call raised or the return was not a
  count, `some (n, buf')` when it returned `n` having left the (writable,
  `buf`-length) memoryview holding `buf'`;
* `rdRes` — result of `read_fn.call1(py, (buf.len(),))`: `none` when the
  call raised, `some none` when it returned a non-bytes object,
  `some (some bs)` when it returned the byte string `bs`.
The fallback branch computes `shortest = min(buf.len(), bs.len())` and
runs `buf[..shortest].copy_from_slice(bs)` before returning
`Ok(bs.len())`. -/
def PyFileObject.readImpl (self : PyFileObject) (buf : List Nat)
    (riRes : Option (Nat × List Nat)) (rdRes : Option (Option (List Nat))) :
    RustOutcome (Nat × List Nat) :=
  if self.readinto_fn then
    match riRes with
    | some (n, buf') => .ok (n, buf')
    | none => .ioErr "Failed to use readinto to read bytes"
  else if self.read_fn then
    match rdRes with
    | none => .ioErr "Failed to call read"
    | some none => .ioErr "read did not return bytes"
    | some (some read_bytes) =>
      let shortest := min buf.length read_bytes.length
      match copyIntoRange buf shortest read_bytes with
      | none => .aborted
      | some buf' => .ok (read_bytes.length, buf')
  else .ioErr "No read method on file object"

/-- Models `<PyFileObject as std::io::Write>::write`: a read-only
memoryview over `buf` is built, then the resolved `write` binding is
required (error message as in the source) and called; `callRes` is the
oracle for `call1` plus `extract::<usize>` (`none` = raised or
non-numeric). -/
def PyFileObject.writeImpl (self : PyFileObject) (_buf : List Nat)
    (callRes : Option Nat) : Except String Nat :=
  if self.write_fn then
    match callRes with
    | some n => Except.ok n
    | none => Except.error "Failed to call write"
  else Except.error "Ne read method on file object"

/-- Models `<PyFileObject as std::io::Write>::flush`: `call_method0(py,
"flush")` with its result discarded; `callRes` is `none` when the foreign
call raised. -/
def PyFileObject.flushImpl (callRes : Option Unit) : Except String Unit :=
  match callRes with
  | some _ => Except.ok ()
  | none => Except.error "Failed to call flush"

/-! ### Seek: argument construction and interaction trace

`py_seek_args_from_rust_seek` builds the `(offset, whence)` argument pair
for the foreign `seek` method.  To settle claims about *when* the whence
constants are looked up, each operation is also given an explicit trace
of its crossings into the Python runtime. -/

/-- Rust `std::io::SeekFrom` (`Start(u64)`, `End(i64)`, `Current(i64)`). -/
inductive SeekFrom where
  | start (n : Nat)
  | fromEnd (n : Int)
  | current (n : Int)
deriving DecidableEq, Repr

/-- A Python `io` whence constant. -/
inductive Whence where
  | seekSet
  | seekCur
  | seekEnd
deriving DecidableEq, Repr

/-- The `io` attribute name each whence constant is fetched from. -/
def Whence.attrName : Whence → String
  | .seekSet => "SEEK_SET"
  | .seekCur => "SEEK_CUR"
  | .seekEnd => "SEEK_END"

/-- Which whence constant `py_seek_args_from_rust_seek` selects for each
`SeekFrom` variant. -/
def whenceOf : SeekFrom → Whence
  | .start _ => .seekSet
  | .fromEnd _ => .seekEnd
  | .current _ => .seekCur

/-- The raw offset carried by a `SeekFrom`. -/
def seekOffset : SeekFrom → Int
  | .start n => n
  | .fromEnd n => n
  | .current n => n

/-- One crossing into the Python runtime. -/
inductive PyOp where
  | importModule (name : String)
  | getattrOp (objName attrName : String)
  | callMethodOp (objName methodName : String)
deriving DecidableEq, Repr

/-- Models `py_seek_args_from_rust_seek`: on every call it does
`py.import("io")` and then `getattr` of the selected whence constant,
returning the `(offset value, whence constant)` pair; the first component
is the trace of Python crossings the call performs. -/
def pySeekArgsFromRustSeek (seek : SeekFrom) : List PyOp × (Int × Whence) :=
  ([.importModule "io", .getattrOp "io" (whenceOf seek).attrName],
   (seekOffset seek, whenceOf seek))

/-- Python-crossing trace of one `<PyFileObject as Seek>::seek` call: the
argument construction followed by `call_method(py, "seek", args, None)`. -/
def pyFileSeekOps (seek : SeekFrom) : List PyOp :=
  (pySeekArgsFromRustSeek seek).1 ++ [.callMethodOp "file_obj" "seek"]

/-- Python-crossing trace of `PyFileObject::new`: three `getattr` probes
on the file object, nothing else. -/
def pyFileNewOps : List PyOp :=
  [.getattrOp "file_obj" "write", .getattrOp "file_obj" "read",
   .getattrOp "file_obj" "readinto"]

/-- Is this crossing a lookup of one of the `io` whence constants? -/
def isWhenceLookup : PyOp → Bool
  | .getattrOp o a =>
    o == "io" && (a == "SEEK_SET" || a == "SEEK_CUR" || a == "SEEK_END")
  | _ => false

/-- Is this crossing an invocation of the foreign `seek` method? -/
def isSeekCall : PyOp → Bool
  | .callMethodOp _ m => m == "seek"
  | _ => false

/-! ### A well-behaved foreign file object

For the claims about the dual-buffered wrapper the foreign object is
instantiated with standard binary-file semantics: a byte content and a
cursor, `read`/`readinto` returning the next bytes, `write` overwriting
at the cursor (zero-padding past end-of-file), `seek` repositioning with
the usual three origins. -/

/-- State of the single shared foreign file object. -/
structure ForeignFile where
  content : List Nat
  pos : Nat
deriving DecidableEq, Repr

/-- Content after writing `bs` at offset `pos` (Python file semantics:
overwrite in place, zero-pad any gap past end-of-file; writing the empty
string changes nothing). -/
def commitAt (content : List Nat) (pos : Nat) (bs : List Nat) : List Nat :=
  if bs.isEmpty then content
  else
    content.take pos ++ List.replicate (pos - content.length) 0 ++ bs ++
      content.drop (pos + bs.length)

/-- Foreign `read(n)` (equivalently `readinto` on an `n`-byte view):
returns the next `min(n, remaining)` bytes and advances the cursor. -/
def ForeignFile.read (f : ForeignFile) (n : Nat) : List Nat × ForeignFile :=
  let bytes := (f.content.drop f.pos).take n
  (bytes, { f with pos := f.pos + bytes.length })

/-- Foreign `write(bs)`: commits `bs` at the cursor, advances it, and
reports `bs.length` bytes written. -/
def ForeignFile.write (f : ForeignFile) (bs : List Nat) : Nat × ForeignFile :=
  (bs.length, ⟨commitAt f.content f.pos bs, f.pos + bs.length⟩)

/-- The target position a foreign `seek(offset, whence)` computes from
the selected origin. -/
def pySeekTarget (f : ForeignFile) (pos : SeekFrom) : Int :=
  match pos with
  | .start n => n
  | .fromEnd k => (f.content.length : Int) + k
  | .current k => (f.pos : Int) + k

/-- `<PyFileObject as Seek>::seek` instantiated at the well-behaved
foreign file: the foreign `seek` repositions the cursor to the target,
raising (mapped to the uniform error message) when it is negative; the
returned position is extracted as `u64`. -/
def pySeek (f : ForeignFile) (pos : SeekFrom) : Except String (Nat × ForeignFile) :=
  if pySeekTarget f pos < 0 then Except.error "Failed to call seek"
  else Except.ok ((pySeekTarget f pos).toNat, { f with pos := (pySeekTarget f pos).toNat })

/-! ### The dual-buffered wrapper `BufReadWritePyFileObject`

`BufReadWritePyFileObject` holds `input = BufReader::new(file.clone())`
and `output = BufWriter::new(file)`; since `PyFileObject` clones share
the one foreign handle, the state is a single `ForeignFile` plus the two
buffers.  `rbuf` is the unread remainder of the reader's internal buffer
(capacity `rcap`); `wbuf` the writer's pending bytes (capacity `wcap`). -/

structure BufReadWritePyFileObject where
  file : ForeignFile
  rbuf : List Nat
  rcap : Nat
  wbuf : List Nat
  wcap : Nat
deriving DecidableEq, Repr

namespace BufReadWritePyFileObject

/-- `BufReadWritePyFileObject::new`: both buffers start empty over the
shared file (std default capacities are 8192; kept as parameters). -/
def new (f : ForeignFile) (rcap wcap : Nat) : BufReadWritePyFileObject :=
  ⟨f, [], rcap, [], wcap⟩

/-- `BufWriter::flush_buf`: writes the pending bytes to the inner file
object and empties the buffer (no foreign call happens when it is
already empty, which `ForeignFile.write`'s empty case matches). -/
def flushBuf (s : BufReadWritePyFileObject) : BufReadWritePyFileObject :=
  { s with file := (s.file.write s.wbuf).2, wbuf := [] }

/-- `<BufWriter as Seek>::seek` on the output side: flush the pending
buffer, then seek the inner file object. -/
def outputSeek (s : BufReadWritePyFileObject) (pos : SeekFrom) :
    Except String (Nat × BufReadWritePyFileObject) :=
  match pySeek (flushBuf s).file pos with
  | .error e => .error e
  | .ok (p, f) => .ok (p, { flushBuf s with file := f })

/-- `<BufReader as Seek>::seek` on the input side: a relative seek is
adjusted by the buffered-but-unread byte count, any other request is
forwarded as is; the internal buffer is discarded. -/
def inputSeek (s : BufReadWritePyFileObject) (pos : SeekFrom) :
    Except String (Nat × BufReadWritePyFileObject) :=
  match pySeek s.file
      (match pos with
       | .current n => SeekFrom.current (n - s.rbuf.length)
       | p => p) with
  | .error e => .error e
  | .ok (p, f) => .ok (p, { s with file := f, rbuf := [] })

/-- `<BufReadWritePyFileObject as Seek>::seek`: seek the output (write)
side first, then re-seek the input (read) side with `SeekFrom::Start` of
the absolute position the first seek returned. -/
def seek (s : BufReadWritePyFileObject) (pos : SeekFrom) :
    Except String (Nat × BufReadWritePyFileObject) :=
  match outputSeek s pos with
  | .error e => .error e
  | .ok (p, s1) => inputSeek s1 (.start p)

/-- `<BufReadWritePyFileObject as Read>::read` of `n` bytes, i.e.
`BufReader::read`: with an empty internal buffer and a request at least
the capacity, bypass the buffer and read directly; otherwise refill the
buffer when empty and serve from it. -/
def read (s : BufReadWritePyFileObject) (n : Nat) :
    List Nat × BufReadWritePyFileObject :=
  if s.rbuf.isEmpty && s.rcap ≤ n then
    let (bytes, f) := s.file.read n
    (bytes, { s with file := f })
  else
    let s1 :=
      if s.rbuf.isEmpty then
        let (chunk, f) := s.file.read s.rcap
        { s with file := f, rbuf := chunk }
      else s
    (s1.rbuf.take n, { s1 with rbuf := s1.rbuf.drop n })

/-- `<BufReadWritePyFileObject as Write>::write`, i.e. `BufWriter::write`:
flush first when the pending buffer cannot absorb `bs`, then either
write `bs` directly (when it alone reaches the capacity) or append it to
the pending buffer. -/
def write (s : BufReadWritePyFileObject) (bs : List Nat) :
    Nat × BufReadWritePyFileObject :=
  let s1 := if s.wcap < s.wbuf.length + bs.length then flushBuf s else s
  if s.wcap ≤ bs.length then
    let (k, f) := s1.file.write bs
    (k, { s1 with file := f })
  else
    (bs.length, { s1 with wbuf := s1.wbuf ++ bs })

/-- `<BufReadWritePyFileObject as Write>::flush`: flush the pending
buffer to the foreign object (whose own `flush` changes no state here). -/
def flush (s : BufReadWritePyFileObject) : BufReadWritePyFileObject :=
  flushBuf s

end BufReadWritePyFileObject

/-! ### Concrete states used by the witnesses -/

/-- A dual-buffered state with two pending write bytes at cursor 2. -/
def c4s : BufReadWritePyFileObject := ⟨⟨[0, 0, 0, 0, 0], 2⟩, [], 4, [9, 9], 4⟩

/-- `c4s` after `seek(Current(3))`: the pending bytes were flushed at
offset 2 and the cursor moved to 4 + 3 = 7. -/
def c4s' : BufReadWritePyFileObject := ⟨⟨[0, 0, 9, 9, 0], 7⟩, [], 4, [], 4⟩

/-- A dual-buffered state with stale bytes in the read buffer. -/
def c5s : BufReadWritePyFileObject := ⟨⟨[1, 2, 3, 4, 5, 6], 5⟩, [7, 8], 4, [], 4⟩

/-- `c5s` after `seek(Start(1))`: the stale read buffer is gone. -/
def c5s' : BufReadWritePyFileObject := ⟨⟨[1, 2, 3, 4, 5, 6], 1⟩, [], 4, [], 4⟩

/-- A dual-buffered state with one pending write byte at cursor 0. -/
def c10s : BufReadWritePyFileObject := ⟨⟨[0, 0, 0], 0⟩, [], 4, [7], 4⟩

/-- `c10s` after `seek(Start(2))`: the pending byte was committed. -/
def c10s' : BufReadWritePyFileObject := ⟨⟨[7, 0, 0], 2⟩, [], 4, [], 4⟩

/-! ### Helper lemmas -/

namespace BufReadWritePyFileObject

lemma flushBuf_file_pos (s : BufReadWritePyFileObject) :
    (flushBuf s).file.pos = s.file.pos + s.wbuf.length := rfl

lemma flushBuf_file_content (s : BufReadWritePyFileObject) :
    (flushBuf s).file.content = commitAt s.file.content s.file.pos s.wbuf := rfl

lemma pySeek_ok {f : ForeignFile} {r : SeekFrom} {p : Nat} {f' : ForeignFile}
    (h : pySeek f r = Except.ok (p, f')) :
    0 ≤ pySeekTarget f r ∧ (p : Int) = pySeekTarget f r ∧ f' = { f with pos := p } := by
  unfold pySeek at h
  split at h
  · exact absurd h (by simp)
  · next hneg =>
    have hnn : 0 ≤ pySeekTarget f r := Int.not_lt.mp hneg
    simp only [Except.ok.injEq, Prod.mk.injEq] at h
    obtain ⟨hp, hf⟩ := h
    refine ⟨hnn, ?_, ?_⟩
    · rw [← hp, Int.toNat_of_nonneg hnn]
    · rw [← hf, hp]

lemma outputSeek_ok {s : BufReadWritePyFileObject} {r : SeekFrom} {q : Nat}
    {t : BufReadWritePyFileObject} (h : outputSeek s r = Except.ok (q, t)) :
    0 ≤ pySeekTarget (flushBuf s).file r ∧
      (q : Int) = pySeekTarget (flushBuf s).file r ∧
      t = { flushBuf s with file := { (flushBuf s).file with pos := q } } := by
  unfold outputSeek at h
  cases hp : pySeek (flushBuf s).file r with
  | error e => rw [hp] at h; exact absurd h (by simp)
  | ok x =>
    obtain ⟨p, f⟩ := x
    rw [hp] at h
    simp only [Except.ok.injEq, Prod.mk.injEq] at h
    obtain ⟨hq, ht⟩ := h
    obtain ⟨hnn, hpv, hf⟩ := pySeek_ok hp
    subst hq
    refine ⟨hnn, hpv, ?_⟩
    rw [← ht, hf]

lemma inputSeek_start (s : BufReadWritePyFileObject) (p : Nat) :
    inputSeek s (.start p) =
      Except.ok (p, { s with file := { s.file with pos := p }, rbuf := [] }) := by
  unfold inputSeek pySeek pySeekTarget
  have hnn : ¬ ((p : Int) < 0) := Int.not_lt.mpr (Int.natCast_nonneg p)
  simp only [if_neg hnn, Int.toNat_natCast]

/-- Full characterization of a successful dual-buffered seek. -/
lemma seek_ok {s : BufReadWritePyFileObject} {r : SeekFrom} {q : Nat}
    {s' : BufReadWritePyFileObject} (h : seek s r = Except.ok (q, s')) :
    (q : Int) = pySeekTarget (flushBuf s).file r ∧
      s' = { file := { content := (flushBuf s).file.content, pos := q },
             rbuf := [], rcap := s.rcap, wbuf := [], wcap := s.wcap } := by
  unfold seek at h
  cases ho : outputSeek s r with
  | error e => rw [ho] at h; exact absurd h (by simp)
  | ok x =>
    obtain ⟨p, s1⟩ := x
    rw [ho] at h
    dsimp only at h
    rw [inputSeek_start] at h
    simp only [Except.ok.injEq, Prod.mk.injEq] at h
    obtain ⟨hq, hs⟩ := h
    obtain ⟨_, hpv, ht⟩ := outputSeek_ok ho
    subst hq
    refine ⟨hpv, ?_⟩
    rw [← hs, ht]
    rfl

lemma read_of_rbuf_nil {s : BufReadWritePyFileObject} (hr : s.rbuf = [])
    (n : Nat) : (read s n).1 = (s.file.content.drop s.file.pos).take n := by
  unfold read ForeignFile.read
  rcases le_or_lt s.rcap n with hc | hc
  · simp [hr, hc]
  · simp only [hr, List.isEmpty_nil, Bool.true_and, decide_eq_true_eq,
      Nat.not_le.mpr hc, if_false, if_true, List.take_take]
    rw [min_eq_left (le_of_lt hc)]

end BufReadWritePyFileObject

/-! ### The claims -/

/-- Claim C1: the fallback read path is claimed to copy exactly
`min(buffer.len(), returned.len())` bytes and never panic.  In the code
`buf[..shortest].copy_from_slice(read_bytes)` passes the *whole*
returned byte string as source, so whenever the foreign `read` returns
more bytes than the buffer holds, `copy_from_slice`'s length check
panics: with a 2-byte buffer and a 3-byte return the read aborts. -/
theorem c1_fallback_read_aborts_on_long_return :
    PyFileObject.readImpl ⟨false, true, false⟩ [0, 0] none (some (some [1, 2, 3])) =
      RustOutcome.aborted := by rfl

/-- Claim C2 (counterexample): constructing the adapter over a foreign
object with no `write` method is claimed to fail with a
`MissingCapability` error; in the code every binding is probed with
`getattr(..).ok()` and `PyFileObject::new` always returns `Ok`. -/
theorem c2_construction_succeeds_without_write :
    PyFileObject.new false true true = Except.ok ⟨false, true, true⟩ := rfl

/-- Claim C2 (amended): construction over an object lacking `write`
succeeds unconditionally (the probe records the absence); the missing
capability surfaces only at the first `write` call, which fails with the
uniform I/O error (whose message, due to a typo, mentions a read
method). -/
theorem c2_amended_missing_write_fails_first_write (hr hri : Bool)
    (buf : List Nat) (cr : Option Nat) :
    PyFileObject.new false hr hri = Except.ok ⟨false, hr, hri⟩ ∧
      PyFileObject.writeImpl ⟨false, hr, hri⟩ buf cr =
        Except.error "Ne read method on file object" :=
  ⟨rfl, rfl⟩

/-- Claim C3: the fallback read path is claimed to report
`returned.len()` as bytes_read even when that exceeds the buffer length;
in that very case the copy panics first (length mismatch in
`copy_from_slice`), so the count is never reported: with a 1-byte buffer
and a 2-byte return the read aborts instead of returning `Ok(2)`. -/
theorem c3_fallback_read_aborts_before_reporting :
    PyFileObject.readImpl ⟨false, true, false⟩ [0] none (some (some [5, 6])) =
      RustOutcome.aborted := by rfl

/-- Claim C4: a successful `seek(FromCurrent(k))` through the
dual-buffered adapter lands at exactly the write side's logical position
(foreign cursor plus pending write bytes) plus `k` — the relative offset
is applied once, not twice — and both sides end up synchronized there. -/
theorem c4_relative_seek_moves_once (s : BufReadWritePyFileObject) (k : Int)
    (q : Nat) (s' : BufReadWritePyFileObject)
    (h : BufReadWritePyFileObject.seek s (.current k) = Except.ok (q, s')) :
    (q : Int) = (s.file.pos : Int) + (s.wbuf.length : Int) + k ∧
      s'.file.pos = q ∧ s'.rbuf = [] ∧ s'.wbuf = [] := by
  obtain ⟨hq, hs⟩ := BufReadWritePyFileObject.seek_ok h
  subst hs
  refine ⟨?_, rfl, rfl, rfl⟩
  rw [hq]
  unfold pySeekTarget
  rw [BufReadWritePyFileObject.flushBuf_file_pos]
  push_cast
  ring

/-- Witness for C4: from cursor 2 with two pending write bytes,
`seek(FromCurrent(3))` lands at 2 + 2 + 3 = 7. -/
theorem c4_witness :
    ((7 : Nat) : Int) = (c4s.file.pos : Int) + (c4s.wbuf.length : Int) + 3 ∧
      c4s'.file.pos = 7 ∧ c4s'.rbuf = [] ∧ c4s'.wbuf = [] :=
  c4_relative_seek_moves_once c4s 3 7 c4s' (by rfl)

/-- Claim C5: after any successful seek through the dual-buffered
adapter to absolute position `q`, both internal buffers are empty (no
stale cached bytes), the shared foreign cursor is at `q`, and a
subsequent read of `n` bytes returns exactly the foreign content at `q`
— which reflects every write flushed so far, never stale buffered
bytes. -/
theorem c5_post_seek_buffers_synchronized (s : BufReadWritePyFileObject)
    (r : SeekFrom) (q : Nat) (s' : BufReadWritePyFileObject) (n : Nat)
    (h : BufReadWritePyFileObject.seek s r = Except.ok (q, s')) :
    s'.rbuf = [] ∧ s'.wbuf = [] ∧ s'.file.pos = q ∧
      (BufReadWritePyFileObject.read s' n).1 = (s'.file.content.drop q).take n := by
  obtain ⟨_, hs⟩ := BufReadWritePyFileObject.seek_ok h
  subst hs
  exact ⟨rfl, rfl, rfl, BufReadWritePyFileObject.read_of_rbuf_nil rfl n⟩

/-- Witness for C5: seeking to 1 discards the stale read buffer `[7, 8]`
and the next 3-byte read returns the true content `[2, 3, 4]`. -/
theorem c5_witness :
    c5s'.rbuf = [] ∧ c5s'.wbuf = [] ∧ c5s'.file.pos = 1 ∧
      (BufReadWritePyFileObject.read c5s' 3).1 = (c5s'.file.content.drop 1).take 3 :=
  c5_post_seek_buffers_synchronized c5s (.start 1) 1 c5s' 3 (by rfl)

/-- Claim C6: whenever the `readinto` binding was resolved, `read` takes
the fast path: it hands the buffer view to the bound `readinto` and
returns that call's numeric result together with the buffer exactly as
the foreign call left it, for every buffer and every behaviour of the
(never consulted) plain-read oracle. -/
theorem c6_readinto_fast_path (w r : Bool) (buf : List Nat) (n : Nat)
    (buf' : List Nat) (rdRes : Option (Option (List Nat))) :
    PyFileObject.readImpl ⟨w, r, true⟩ buf (some (n, buf')) rdRes =
      RustOutcome.ok (n, buf') := rfl

/-- Claim C7 (counterexample): the whence constants are claimed to be
resolved once at construction and never re-looked-up per call; in the
code `py_seek_args_from_rust_seek` imports `io` and fetches the constant
on every call, so even `seek(Start(0))` performs a whence lookup. -/
theorem c7_whence_looked_up_per_seek_call :
    ¬ (pyFileSeekOps (SeekFrom.start 0)).countP isWhenceLookup = 0 := by decide

/-- Claim C7 (amended): each seek passes the offset and the matching
`io` whence constant (`SEEK_SET`/`SEEK_CUR`/`SEEK_END`) as the two
arguments of the foreign `seek` method, but the constant is looked up on
*every* call — each seek crosses into the foreign runtime three times
(module import, constant lookup, method call) and construction resolves
no whence constant at all. -/
theorem c7_amended_whence_per_call (s : SeekFrom) :
    (pySeekArgsFromRustSeek s).2 = (seekOffset s, whenceOf s) ∧
      (pyFileSeekOps s).countP isWhenceLookup = 1 ∧
      (pyFileSeekOps s).countP isSeekCall = 1 ∧
      (pyFileSeekOps s).length = 3 ∧
      pyFileNewOps.countP isWhenceLookup = 0 := by
  cases s <;> exact ⟨rfl, rfl, rfl, rfl, rfl⟩

/-- Claim C8: every failure is claimed to carry a message naming the
failing operation; the missing-`write` branch instead reports
"Ne read method on file object" — naming a read method (a copy-paste
typo of the read path's message), not the write operation. -/
theorem c8_missing_write_message_names_read :
    PyFileObject.writeImpl ⟨false, true, true⟩ [1, 2, 3] (some 3) =
      Except.error "Ne read method on file object" ∧
      "Ne read method on file object" ≠ "No write method on file object" :=
  ⟨rfl, by decide⟩

/-- Claim C9: with the `readinto` binding resolved, the plain-read
binding and its oracle are never consulted: the read's outcome is fully
determined by the `readinto` call — its count on success, the readinto
error (with no fallback and no bytes reported) on failure — whether or
not a plain `read` method exists. -/
theorem c9_readinto_never_falls_back (w r : Bool) (buf : List Nat)
    (riRes : Option (Nat × List Nat)) (rdRes : Option (Option (List Nat))) :
    PyFileObject.readImpl ⟨w, r, true⟩ buf riRes rdRes =
      (match riRes with
       | some (n, buf') => RustOutcome.ok (n, buf')
       | none => RustOutcome.ioErr "Failed to use readinto to read bytes") := by
  rcases riRes with _ | ⟨n, b⟩ <;> rfl

/-- Claim C10: a successful seek through the dual-buffered adapter
commits every pending write-buffer byte to the foreign object at the
pre-seek cursor before repositioning: afterwards the write buffer is
empty and the foreign content contains the pending bytes. -/
theorem c10_seek_flushes_pending_writes (s : BufReadWritePyFileObject)
    (r : SeekFrom) (q : Nat) (s' : BufReadWritePyFileObject)
    (h : BufReadWritePyFileObject.seek s r = Except.ok (q, s')) :
    s'.wbuf = [] ∧
      s'.file.content = commitAt s.file.content s.file.pos s.wbuf := by
  obtain ⟨_, hs⟩ := BufReadWritePyFileObject.seek_ok h
  subst hs
  exact ⟨rfl, BufReadWritePyFileObject.flushBuf_file_content s⟩

/-- Witness for C10: the pending byte `7` is committed at offset 0 by
`seek(Start(2))`, not discarded. -/
theorem c10_witness :
    c10s'.wbuf = [] ∧
      c10s'.file.content = commitAt c10s.file.content c10s.file.pos c10s.wbuf :=
  c10_seek_flushes_pending_writes c10s (.start 2) 2 c10s' (by rfl)

end LazAdapters
